import Mathlib

/-!
Verification of the istat-for-NTFS MFT-entry decoder.

This file shallowly embeds the byte-level decoding routines of the
repository (`hw5utils.py` and `istat_ntfs.py`) as pure Lean functions over
`List Nat` byte buffers, and settles the frozen claims about them.

Conventions of the embedding:
- a Python `bytes` value is a `List Nat` whose elements are the byte values;
- Python slicing `b[a:i]` (with clamping at the end of the buffer) is the
  function `slice`;
- `int.from_bytes(data, "little")` is `unpack`, and its
  `signed=True` variant is `unpackSigned`;
- Python indexing `b[i]`, which raises `IndexError` out of range, is
  `List.getElem?`, with exceptions modelled by `Option`;
- the `while` loops of `get_attr_by_id` (which has no termination
  guarantee) and of the run-list decoder are given an explicit fuel
  parameter; exhausting the fuel yields `none`, so a `some` result is one
  the Python loop actually produces, and `none` for every fuel means the
  loop never finishes (or raised);
- the numeric content of `_localtime_string` is modelled only as far as it
  is float-free: the fraction field is exact integer arithmetic
  (`windows_timestamp % 10000000`), but the seconds field goes through
  IEEE-754 binary64 division and `datetime.fromtimestamp` (which can round
  across a second boundary at realistic tick counts, and raises for tick
  counts whose calendar year exceeds 9999), so `localtime_pair` idealizes
  the seconds as the exact floor and is relied on only by properties that
  do not depend on that idealization (byte-offset addressing and the
  fraction field).
-/

namespace Istat

/-- Python slice `l[a:b]` for natural indices: drop `a`, then take `b - a`.
Like the Python operation it clamps at the end of the list and yields `[]`
when `b ≤ a`. -/
def slice (l : List Nat) (a b : Nat) : List Nat :=
  (l.drop a).take (b - a)

/-- `unpack` from `hw5utils.py`: `int.from_bytes(data, byteorder="little")`,
unsigned little-endian. -/
def unpack (data : List Nat) : Nat :=
  data.foldr (fun b acc => b + 256 * acc) 0

/-- `unpack(data, signed=True)` from `hw5utils.py`: little-endian
two's-complement. An empty byte list decodes to 0, as in Python. -/
def unpackSigned (data : List Nat) : Int :=
  if unpack data < 2 ^ (8 * data.length - 1) then (unpack data : Int)
  else (unpack data : Int) - 2 ^ (8 * data.length)

/-- Python `range(a, b)` over integers, as the list `[a, a+1, ..., b-1]`
(empty when `b ≤ a`). Used for `list(range(prev_first_cluster,
prev_first_cluster + length))` in `parse_data_attr`. -/
def intRange (a b : Int) : List Int :=
  (List.range (b - a).toNat).map (fun i => a + (i : Int))

/-- The run-list `while` loop of `ParseMFT.parse_data_attr`
(`istat_ntfs.py` lines 155-169), reading from `attribute` at cursor
`runlist_offset` with accumulator `prev_first_cluster`:
read the header byte (stop on `0x00`); high nibble = byte count of the
signed cluster-offset delta, low nibble = byte count of the run length;
`length = unpack(attribute[runlist_offset+1 : byte_offset], True)` (note:
the source reads the run length with `signed=True`);
`cluster = unpack(attribute[byte_offset : byte_offset+offset_nibble], True)`;
`prev_first_cluster += cluster`; append
`range(prev_first_cluster, prev_first_cluster + length)`; advance the
cursor. Out-of-range indexing (`attribute[runlist_offset]`) is `none`. -/
def runlist_decode (attr : List Nat) : Nat → Nat → Int → Option (List Int)
  | 0, _, _ => none
  | fuel + 1, runlist_offset, prev_first_cluster =>
    match attr[runlist_offset]? with
    | none => none
    | some first_byte =>
      if first_byte = 0 then some []
      else
        let offset_nibble := first_byte / 16
        let run_length_nibble := first_byte % 16
        let byte_offset := runlist_offset + run_length_nibble + 1
        let len := unpackSigned (slice attr (runlist_offset + 1) byte_offset)
        let cluster := unpackSigned (slice attr byte_offset (byte_offset + offset_nibble))
        let curr := prev_first_cluster + cluster
        match runlist_decode attr fuel (byte_offset + offset_nibble) curr with
        | none => none
        | some rest => some (intRange curr (curr + len) ++ rest)

/-- The run-list bytes of the single-run example: header `0x11`, run
length `0x30` = 48 clusters, offset delta `0x10` = 16, terminator `0x00`. -/
def run1bytes : List Nat := [0x11, 0x30, 0x10, 0x00]

/-- Claim C1: decoding the run list `0x11 0x30 0x10 0x00` emits exactly the
48 consecutive clusters 16..63 and stops at the `0x00` terminator byte:
even with further (non-zero) bytes appended after the terminator, no
further runs are emitted. -/
theorem runlist_single_run :
    runlist_decode run1bytes 8 0 0 = some (intRange 16 64) ∧
    runlist_decode (run1bytes ++ [0x21, 0x01, 0x40, 0x00]) 8 0 0 = some (intRange 16 64) ∧
    intRange 16 64 = (List.range 48).map (fun i => (16 : Int) + (i : Int)) ∧
    (intRange 16 64).length = 48 ∧
    (intRange 16 64).head? = some 16 ∧
    (intRange 16 64).getLast? = some 63 := by
  refine ⟨by decide, by decide, by decide, by decide, by decide, by decide⟩

/-- `intRange a (a + 2)` is the two-element list `[a, a + 1]`. -/
theorem intRange_two (a : Int) : intRange a (a + 2) = [a, a + 1] := by
  have h : (a + 2 - a).toNat = 2 := by omega
  rw [intRange, h]
  have h2 : List.range 2 = [0, 1] := by decide
  rw [h2]
  simp

/-- The two-run example: run `0x11 0x30 0x10` (48 clusters from 16)
followed by run `0x11 0x02 0xFB` (2 clusters, offset delta -5), then the
terminator. -/
def run2bytes : List Nat := [0x11, 0x30, 0x10, 0x11, 0x02, 0xFB, 0x00]

/-- Claim C2 (amended): a run `0x11 0x02 0xFB` adds the signed delta
`-5` to the running current-cluster value `prev`, the starting cluster of
the *previous run* (not of the cluster after the previous run's end), and
emits the two clusters `prev - 5` and `prev - 4`; hence in the two-run
example the second run starts at cluster `16 - 5 = 11` (not `16 + 48 - 5 =
59`), and the whole decode is `[16..63] ++ [11, 12]`. The decoder does
accumulate each signed delta onto a running value rather than resetting
per run; that running value is the previous run's starting cluster. -/
theorem runlist_delta_accumulation :
    (∀ prev : Int,
      runlist_decode [0x11, 0x02, 0xFB, 0x00] 4 0 prev = some [prev - 5, prev - 4]) ∧
    runlist_decode run2bytes 8 0 0 = some (intRange 16 64 ++ [11, 12]) := by
  constructor
  · intro prev
    have h1 : runlist_decode [0x11, 0x02, 0xFB, 0x00] 4 0 prev =
        some (intRange (prev + (-5)) (prev + (-5) + 2) ++ []) := rfl
    rw [h1, List.append_nil, intRange_two]
    have e1 : prev + (-5) = prev - 5 := by ring
    have e2 : prev - 5 + 1 = prev - 4 := by ring
    rw [e1, e2]
  · decide

/-- Claim C2 counterexample: in the two-run example the second run's
starting cluster (the 49th emitted cluster, index 48) is 11, not the 59
the claim computes as 16 + 48 - 5. -/
theorem runlist_second_run_not_59 :
    (runlist_decode run2bytes 8 0 0).map (fun l => l[48]?) = some (some 11) ∧
    (11 : Int) ≠ 59 := by
  refine ⟨by decide, by decide⟩

/-- A run list whose second run has an offset-length nibble of 0 (a sparse
run): run `0x11 0x30 0x10`, then header `0x01` (no offset bytes) with run
length 2, then the terminator. -/
def sparse_runbytes : List Nat := [0x11, 0x30, 0x10, 0x01, 0x02, 0x00]

/-- Claim C3 (code bug, evaluated at the failing input): for the sparse
run of `sparse_runbytes` the decoder reads the zero offset bytes as
`unpack(b"", signed=True) = 0`, keeps the previous run's position, and
emits the hole's two clusters as `[16, 17]` — physical clusters that were
already emitted by the first run. The hole is neither excluded from the
emitted cluster list nor marked as sparse. -/
theorem runlist_sparse_emits_previous_position :
    runlist_decode sparse_runbytes 8 0 0 = some (intRange 16 64 ++ [16, 17]) ∧
    unpackSigned [] = 0 ∧
    (16 : Int) ∈ intRange 16 64 ∧ (17 : Int) ∈ intRange 16 64 := by
  refine ⟨by decide, by decide, by decide, by decide⟩

/-- A single-run list whose run-length byte has the top bit set: header
`0x11`, run-length byte `0x80`, offset byte `0x10`, terminator. -/
def signed_len_runbytes : List Nat := [0x11, 0x80, 0x10, 0x00]

/-- Claim C4 (code bug, evaluated at the failing input): the source reads
the run-length bytes with `signed=True` (`istat_ntfs.py` line 163), so the
run-length byte `0x80` decodes to -128 rather than the unsigned 128, and
the decoder emits an empty cluster list for this run instead of 128
clusters starting at 16. -/
theorem runlist_length_read_signed :
    runlist_decode signed_len_runbytes 8 0 0 = some [] ∧
    unpackSigned [0x80] = -128 ∧ unpack [0x80] = 128 := by
  refine ⟨by decide, by decide, by decide⟩

/-- The `while` loop of `get_attr_by_id` (`hw5utils.py` lines 49-61), with
an explicit fuel: the state is the candidate record `attr_full_entry` and
the cursor `prev_attr_end` (in the source `prev_attr_end` and
`curr_attr_end` are equal whenever the loop guard is tested, so one
variable carries both). Each iteration reads the candidate's 4-byte length
field at `prev_attr_end + 4` and advances by it; there is no check that
the length is positive and no bounds or end-marker check, so the loop need
not terminate — `none` for every fuel value means the Python loop runs
forever. -/
def get_attr_by_id_loop (attr_id : Nat) (entry : List Nat) :
    Nat → List Nat → Nat → Option (List Nat × Nat)
  | 0, _, _ => none
  | fuel + 1, attr_full_entry, prev_attr_end =>
    if unpack (attr_full_entry.take 4) = attr_id then some (attr_full_entry, prev_attr_end)
    else
      let len := unpack (slice entry (prev_attr_end + 4) (prev_attr_end + 8))
      let curr_attr_end := prev_attr_end + len
      get_attr_by_id_loop attr_id entry fuel (slice entry prev_attr_end curr_attr_end) curr_attr_end

/-- `get_attr_by_id(attr_id, entry, prev_attr_end)` from `hw5utils.py`:
starts the scan with the sentinel candidate `b"\x00\x00\x00\x00"` so the
loop body runs at least once. -/
def get_attr_by_id (fuel attr_id : Nat) (entry : List Nat) (prev_attr_end : Nat) :
    Option (List Nat × Nat) :=
  get_attr_by_id_loop attr_id entry fuel [0, 0, 0, 0] prev_attr_end

/-- Once the walker reaches the empty candidate at offset 0 of an all-zero
8-byte entry, every further iteration reproduces exactly the same state:
the declared length is 0, so no fuel suffices to finish. -/
theorem get_attr_by_id_loop_stuck :
    ∀ fuel, get_attr_by_id_loop 0x10 (List.replicate 8 0) fuel [] 0 = none
  | 0 => rfl
  | fuel + 1 => get_attr_by_id_loop_stuck fuel

/-- Claim C5 (code bug, evaluated at the failing input): searching an
all-zero 8-byte entry for attribute type `0x10` from offset 0, the
candidate's declared 4-byte length is 0, so the scan makes no forward
progress; the source has no `MalformedAttributeError` check and loops
forever — formally, no amount of fuel makes the walker return. -/
theorem get_attr_by_id_nonterminating :
    ∀ fuel, get_attr_by_id fuel 0x10 (List.replicate 8 0) 0 = none
  | 0 => rfl
  | fuel + 1 => get_attr_by_id_loop_stuck fuel

/-- The ASCII bytes of the signature `FILE`. -/
def fileSig : List Nat := [70, 73, 76, 69]

/-- `apply_fixup` from `hw5utils.py` (lines 98-105): assert the `FILE`
signature (the failed `assert` is modelled as `none`); read the 2-byte
fixup-array offset at bytes 4-5 and the 2-byte fixup-entry count at bytes
6-7; take the fixup-array bytes after its first 2 bytes
(`entry[fixup+2 : fixup+2*num_fixup_entries]`); rebuild the buffer as
`entry[:510] + fixuprepl[0:2] + entry[512:1022] + fixuprepl[2:4]`. The
function is pure: the input buffer is never mutated. -/
def apply_fixup (entry : List Nat) : Option (List Nat) :=
  if entry.take 4 = fileSig then
    let fixup := unpack (slice entry 4 6)
    let num_fixup_entries := unpack (slice entry 6 8)
    let fixuprepl := slice entry (fixup + 2) (fixup + 2 * num_fixup_entries)
    some (entry.take 510 ++ slice fixuprepl 0 2 ++ slice entry 512 1022 ++ slice fixuprepl 2 4)
  else none

/-- Claim C7: on every 1024-byte buffer the fixup corrector fails (the
source's `assert entry[0:4] == b"FILE"` raises) exactly when the first 4
bytes are not the ASCII signature `FILE`; it passes the validation only
for buffers that begin with `FILE`. -/
theorem apply_fixup_signature (entry : List Nat) (_hlen : entry.length = 1024) :
    apply_fixup entry = none ↔ entry.take 4 ≠ fileSig := by
  rw [apply_fixup]
  by_cases h : entry.take 4 = fileSig
  · simp [h]
  · simp [h]

/-- Witness for C7 at the all-zero 1024-byte buffer: the signature check
fails and `apply_fixup` returns `none`. -/
theorem apply_fixup_signature_witness :
    (List.replicate 1024 0).length = 1024 ∧
    (apply_fixup (List.replicate 1024 0) = none ↔
      (List.replicate 1024 0).take 4 ≠ fileSig) :=
  ⟨List.length_replicate 1024 0,
   apply_fixup_signature (List.replicate 1024 0) (List.length_replicate 1024 0)⟩

/-- Length of a Python slice: `b - a` clamped by the bytes available
after `a`. -/
theorem slice_length (l : List Nat) (a b : Nat) :
    (slice l a b).length = min (b - a) (l.length - a) := by
  simp [slice, List.length_take, List.length_drop]

/-- Reading inside a Python slice reads the underlying buffer at the
shifted index. -/
theorem slice_getElem? (l : List Nat) (a b i : Nat) (h : i < b - a) :
    (slice l a b)[i]? = l[a + i]? := by
  rw [slice, List.getElem?_take, if_pos h, List.getElem?_drop]

/-- Indexing an append on the left of the boundary. -/
theorem get_append_lt {l₁ l₂ : List Nat} {n : Nat} (h : n < l₁.length) :
    (l₁ ++ l₂)[n]? = l₁[n]? := by
  rw [List.getElem?_append, if_pos h]

/-- Indexing an append on the right of the boundary. -/
theorem get_append_ge {l₁ l₂ : List Nat} {n : Nat} (h : ¬ n < l₁.length) :
    (l₁ ++ l₂)[n]? = l₂[n - l₁.length]? := by
  rw [List.getElem?_append, if_neg h]

/-- Claim C6: on a valid 1024-byte entry (`FILE` signature, the standard
fixup-entry count 3, fixup array within bounds) `apply_fixup` returns a
new 1024-byte buffer in which exactly the byte pairs at 510-511 and
1022-1023 are replaced by the fixup array's second and third 2-byte pairs
(the array's first 2 bytes, the update-sequence number, are skipped) and
every other byte is unchanged. The embedding is a pure function, matching
the source, which builds a fresh `bytes` object and never mutates its
input. -/
theorem apply_fixup_frame (entry : List Nat)
    (hlen : entry.length = 1024)
    (hsig : entry.take 4 = fileSig)
    (hnum : unpack (slice entry 6 8) = 3)
    (hfix : unpack (slice entry 4 6) + 6 ≤ 1024) :
    ∃ fixed, apply_fixup entry = some fixed ∧ fixed.length = 1024 ∧
      (∀ i, i < 1024 → i ≠ 510 → i ≠ 511 → i ≠ 1022 → i ≠ 1023 →
        fixed[i]? = entry[i]?) ∧
      fixed[510]? = entry[unpack (slice entry 4 6) + 2]? ∧
      fixed[511]? = entry[unpack (slice entry 4 6) + 3]? ∧
      fixed[1022]? = entry[unpack (slice entry 4 6) + 4]? ∧
      fixed[1023]? = entry[unpack (slice entry 4 6) + 5]? := by
  obtain ⟨F, hF⟩ : ∃ F, unpack (slice entry 4 6) = F := ⟨_, rfl⟩
  rw [hF] at hfix ⊢
  have hrepl : (slice entry (F + 2) (F + 6)).length = 4 := by
    rw [slice_length, hlen]; omega
  have ht1 : (entry.take 510).length = 510 := by
    rw [List.length_take, hlen]; omega
  have hp1 : (slice (slice entry (F + 2) (F + 6)) 0 2).length = 2 := by
    rw [slice_length, hrepl]; omega
  have hmid : (slice entry 512 1022).length = 510 := by
    rw [slice_length, hlen]; omega
  have hp2 : (slice (slice entry (F + 2) (F + 6)) 2 4).length = 2 := by
    rw [slice_length, hrepl]; omega
  have h12 : (entry.take 510 ++ slice (slice entry (F + 2) (F + 6)) 0 2).length = 512 := by
    rw [List.length_append, ht1, hp1]
  have h123 : ((entry.take 510 ++ slice (slice entry (F + 2) (F + 6)) 0 2) ++
      slice entry 512 1022).length = 1022 := by
    rw [List.length_append, h12, hmid]
  have hfe : apply_fixup entry =
      some (entry.take 510 ++ slice (slice entry (F + 2) (F + 6)) 0 2 ++
            slice entry 512 1022 ++ slice (slice entry (F + 2) (F + 6)) 2 4) := by
    simp only [apply_fixup, if_pos hsig, hnum, hF]
  refine ⟨_, hfe, ?_, ?_, ?_, ?_, ?_, ?_⟩
  · rw [List.length_append, h123, hp2]
  · intro i hi hne510 hne511 hne1022 hne1023
    by_cases h1 : i < 510
    · rw [get_append_lt (by rw [h123]; omega), get_append_lt (by rw [h12]; omega),
        get_append_lt (by rw [ht1]; exact h1), List.getElem?_take, if_pos h1]
    · by_cases h2 : i < 512
      · exfalso; omega
      · by_cases h3 : i < 1022
        · rw [get_append_lt (by rw [h123]; omega), get_append_ge (by rw [h12]; omega), h12,
            slice_getElem? entry 512 1022 _ (by omega)]
          have hidx : 512 + (i - 512) = i := by omega
          rw [hidx]
        · exfalso; omega
  · rw [get_append_lt (by rw [h123]; omega), get_append_lt (by rw [h12]; omega),
      get_append_ge (by rw [ht1]; omega), ht1,
      slice_getElem? (slice entry (F + 2) (F + 6)) 0 2 _ (by omega),
      slice_getElem? entry (F + 2) (F + 6) _ (by omega)]
  · rw [get_append_lt (by rw [h123]; omega), get_append_lt (by rw [h12]; omega),
      get_append_ge (by rw [ht1]; omega), ht1,
      slice_getElem? (slice entry (F + 2) (F + 6)) 0 2 _ (by omega),
      slice_getElem? entry (F + 2) (F + 6) _ (by omega)]
  · rw [get_append_ge (by rw [h123]; omega), h123,
      slice_getElem? (slice entry (F + 2) (F + 6)) 2 4 _ (by omega),
      slice_getElem? entry (F + 2) (F + 6) _ (by omega)]
  · rw [get_append_ge (by rw [h123]; omega), h123,
      slice_getElem? (slice entry (F + 2) (F + 6)) 2 4 _ (by omega),
      slice_getElem? entry (F + 2) (F + 6) _ (by omega)]

/-- A concrete valid 1024-byte entry: `FILE` signature, fixup array at
offset 8 with entry count 3 (update-sequence number `9 9`, replacement
pairs `11 22` and `33 44`), zero elsewhere. -/
def fixupEntry : List Nat :=
  [70, 73, 76, 69, 8, 0, 3, 0, 9, 9, 11, 22, 33, 44] ++ List.replicate 1010 0

set_option maxRecDepth 100000 in
/-- Witness for C6 at `fixupEntry`: the hypotheses hold and the frame
property follows by the theorem. -/
theorem apply_fixup_frame_witness :
    (fixupEntry.length = 1024 ∧ fixupEntry.take 4 = fileSig ∧
     unpack (slice fixupEntry 6 8) = 3 ∧ unpack (slice fixupEntry 4 6) + 6 ≤ 1024) ∧
    (∃ fixed, apply_fixup fixupEntry = some fixed ∧ fixed.length = 1024 ∧
      (∀ i, i < 1024 → i ≠ 510 → i ≠ 511 → i ≠ 1022 → i ≠ 1023 →
        fixed[i]? = fixupEntry[i]?) ∧
      fixed[510]? = fixupEntry[unpack (slice fixupEntry 4 6) + 2]? ∧
      fixed[511]? = fixupEntry[unpack (slice fixupEntry 4 6) + 3]? ∧
      fixed[1022]? = fixupEntry[unpack (slice fixupEntry 4 6) + 4]? ∧
      fixed[1023]? = fixupEntry[unpack (slice fixupEntry 4 6) + 5]?) :=
  ⟨⟨by decide, rfl, rfl, by decide⟩,
   apply_fixup_frame fixupEntry (by decide) rfl rfl (by decide)⟩

/-- The numeric content of `_localtime_string` (`hw5utils.py` lines
155-172): the first component idealizes the whole-second value —
`epoch_ts = (windows_timestamp - 116444736000000000) / 10000000` taken as
the exact quotient, floored by `datetime.fromtimestamp(epoch_ts)` when
`windows_timestamp > 0` and truncated toward zero (`Int.tdiv`, Python's
`int()`) in the `datetime(1970,1,1) + timedelta(...)` branch otherwise.
The real Python `/` is IEEE-754 binary64 division, which can round the
quotient across a second boundary (e.g. at ticks
`116444736000000000 + 10000000 * 1700000000 - 1` the exact quotient
1699999999.9999999 is within half an ulp of 1700000000.0, since
`2 ^ 23 < 10 ^ 7`, and the code displays second 1700000000 where the exact
floor is 1699999999), and `fromtimestamp` raises for tick counts whose
calendar year exceeds 9999; the properties proved below only address
which bytes feed `localtime_pair` or use its fraction component, and so
do not depend on this idealization. The second component is the displayed
fraction `windows_timestamp % 10000000` (100ns units), exact integer
arithmetic in the source. -/
def localtime_pair (windows_timestamp : Nat) : Int × Nat :=
  let epoch_num : Int := (windows_timestamp : Int) - 116444736000000000
  let secs : Int :=
    if 0 < windows_timestamp then epoch_num.fdiv 10000000 else epoch_num.tdiv 10000000
  (secs, windows_timestamp % 10000000)

/-- `parse_time` from `hw5utils.py` (lines 175-190): reads the 8-byte
little-endian unsigned tick count at `header_length + index_range`, where
`header_length` is hard-coded to 24, and converts it with
`_localtime_string`. -/
def parse_time (attr : List Nat) (index_range : Nat × Nat) : Int × Nat :=
  localtime_pair (unpack (slice attr (24 + index_range.1) (24 + index_range.2)))

/-- The fields of the `$STANDARD_INFORMATION` dictionary built by
`ParseMFT.parse_std_info_attr` (`istat_ntfs.py` lines 52-82), with the
timestamps as (seconds, fraction) pairs. -/
structure StdInfo where
  created : Int × Nat
  modified : Int × Nat
  mft_modified : Int × Nat
  accessed : Int × Nat
  flags : Nat
  std_info_size : Nat
  std_info_end : Nat

/-- The body of `ParseMFT.parse_std_info_attr` after the walker returned
`(attribute, std_info_end)`: `content_offset = unpack(attribute[20:22])`,
`content = attribute[content_offset : std_info_end + 1]`; the four
timestamps are taken by `parse_time` from the full attribute (at the
hard-coded header length 24), the flags from `content[32:36]`, the size
from `attribute[16:20]`. -/
def std_info_fields (attr : List Nat) (std_info_end : Nat) : StdInfo :=
  let content_offset := unpack (slice attr 20 22)
  let content := slice attr content_offset (std_info_end + 1)
  { created := parse_time attr (0, 8)
    modified := parse_time attr (8, 16)
    mft_modified := parse_time attr (16, 24)
    accessed := parse_time attr (24, 32)
    flags := unpack (slice content 32 36)
    std_info_size := unpack (slice attr 16 20)
    std_info_end := std_info_end }

/-- `ParseMFT.parse_std_info_attr`: locate attribute type `0x10` with
`get_attr_by_id`, then extract the fields. -/
def parse_std_info_attr (fuel : Nat) (entry : List Nat) (entry_start : Nat) :
    Option StdInfo :=
  (get_attr_by_id fuel 0x10 entry entry_start).map (fun r => std_info_fields r.1 r.2)

/-- Claim C9 (amended): the flags field is read relative to the
header-stored content offset (attribute bytes 20-21), but the four
timestamps are always read at the fixed offset 24 (`parse_time`'s
hard-coded `header_length`), whatever the header-stored content offset
says. -/
theorem std_info_timestamps_fixed_offset (attr : List Nat) (e : Nat) :
    (std_info_fields attr e).created = localtime_pair (unpack (slice attr 24 32)) ∧
    (std_info_fields attr e).modified = localtime_pair (unpack (slice attr 32 40)) ∧
    (std_info_fields attr e).mft_modified = localtime_pair (unpack (slice attr 40 48)) ∧
    (std_info_fields attr e).accessed = localtime_pair (unpack (slice attr 48 56)) ∧
    (std_info_fields attr e).flags =
      unpack (slice (slice attr (unpack (slice attr 20 22)) (e + 1)) 32 36) :=
  ⟨rfl, rfl, rfl, rfl, rfl⟩

/-- A concrete 48-byte entry consisting of one `$STANDARD_INFORMATION`
attribute whose header stores content offset 32 (not 24): the declared
length is 48, the 8 bytes at offset 24 are a tick count of 0 and the
8 bytes at offset 32 (where the header says content begins) are a tick
count of 1. -/
def stdInfoEntry32 : List Nat :=
  [16, 0, 0, 0, 48, 0, 0, 0, 0, 0, 0, 0, 0, 0, 0, 0,
   0, 0, 0, 0, 32, 0, 0, 0, 0, 0, 0, 0, 0, 0, 0, 0,
   1, 0, 0, 0, 0, 0, 0, 0, 0, 0, 0, 0, 0, 0, 0, 0]

/-- Claim C9 counterexample: parsing `stdInfoEntry32`, whose header-stored
content offset is 32 ≠ 24, yields a `created` timestamp equal to the
decode of the bytes at fixed offset 24 (ticks 0), which differs from the
decode of the bytes at the header-stored offset 32 (ticks 1) — the
extracted timestamp does not come from the header-stored offset. -/
theorem std_info_content_offset_cex :
    unpack (slice stdInfoEntry32 20 22) = 32 ∧
    (parse_std_info_attr 8 stdInfoEntry32 0).map (fun d => d.created) =
      some (localtime_pair (unpack (slice stdInfoEntry32 24 32))) ∧
    localtime_pair (unpack (slice stdInfoEntry32 24 32)) ≠
      localtime_pair (unpack (slice stdInfoEntry32 32 40)) := by
  refine ⟨by decide, by decide, by decide⟩

/-- The fields of the MFT entry header built by
`ParseMFT.parse_entry_header` (`istat_ntfs.py` lines 26-50). -/
structure EntryHeader where
  address : Nat
  sequence : Nat
  logfile_seq_num : Nat
  links : Nat
  allocated : Bool

/-- `ParseMFT.parse_entry_header`: sequence from bytes 16-17, `$LogFile`
sequence number from bytes 8-15, links from bytes 18-19, and
`allocated = (unpack(entry[22:24]) != 0)` — the whole 2-byte flags field
compared against zero. -/
def parse_entry_header (address : Nat) (entry : List Nat) : EntryHeader :=
  { address := address
    sequence := unpack (slice entry 16 18)
    logfile_seq_num := unpack (slice entry 8 16)
    links := unpack (slice entry 18 20)
    allocated := unpack (slice entry 22 24) != 0 }

/-- Claim C10 (amended): the parser reports the entry as allocated exactly
when the 2-byte little-endian flags field at offset 22 is nonzero — so
bits other than bit 0 (for example the directory bit) do affect the
result. -/
theorem allocated_iff_flags_nonzero (address : Nat) (entry : List Nat) :
    ((parse_entry_header address entry).allocated = true ↔
      unpack (slice entry 22 24) ≠ 0) := by
  simp [parse_entry_header]

/-- A 1024-byte entry whose flags field at offset 22 is `0x0002`: bit 0
(the in-use bit) is clear, bit 1 (the directory bit) is set — the layout
of a deleted directory. -/
def dirEntry : List Nat :=
  List.replicate 22 0 ++ [2, 0] ++ List.replicate 1000 0

set_option maxRecDepth 100000 in
/-- Claim C10 counterexample: on `dirEntry` (flags = 2, bit 0 clear) the
parser reports `allocated = true`, so the allocated result is not
determined by bit 0 alone. -/
theorem allocated_bit0_cex :
    dirEntry.length = 1024 ∧
    (parse_entry_header 0 dirEntry).allocated = true ∧
    unpack (slice dirEntry 22 24) % 2 = 0 := by
  refine ⟨by decide, by decide, by decide⟩

end Istat
